import Mathlib

/-!
Verification of the wordle-helper core: the `check_word` predicate, the
`word_retriever` generator over the rank-descending corpus, the 200-word
display truncation, and the `LetterButton` three-state classification
machine, embedded shallowly from `src/main.py`.
-/

/-- A corpus word, as the characters of the database row's word column. -/
abbrev Word := List Char

/-- Embedding of `check_word` (src/main.py lines 111-131): length check, then
the existent-letter loop, then the nonexistent-letter loop, then the
locked-position loop, each returning `false` at the first failure. -/
def check_word (known_letters : List (Char × Nat)) (existent_letters : List Char)
    (nonexistent_letters : List Char) (word : Word) : Bool :=
  if word.length != 5 then false
  else if !(existent_letters.all fun c => word.contains c) then false
  else if !(nonexistent_letters.all fun c => !(word.contains c)) then false
  else if !(known_letters.all fun li => word.get? li.2 == some li.1) then false
  else true

/-- Embedding of `word_retriever` (src/main.py lines 106-135): the corpus rows
arrive already ordered by the query `ORDER BY probability DESC`; the generator
yields exactly the rows passing `check_word`, in that order. -/
def word_retriever (known_letters : List (Char × Nat)) (existent_letters : List Char)
    (nonexistent_letters : List Char) (corpus : List Word) : List Word :=
  corpus.filter fun w => check_word known_letters existent_letters nonexistent_letters w

/-- The hard-coded cutoff of `WordsDisplayer.display_words` (src/main.py line 352). -/
def display_limit : Nat := 200

/-- Embedding of `WordsDisplayer.display_words` (src/main.py lines 343-355):
consumes the generator's words, stopping after `display_limit` of them. -/
def display_words (words_list : List Word) : List Word :=
  words_list.take display_limit

/-- The full search pipeline of `search_words`: the generator's output as
consumed by the displayer. -/
def search (corpus : List Word) (known_letters : List (Char × Nat))
    (existent_letters nonexistent_letters : List Char) : List Word :=
  display_words (word_retriever known_letters existent_letters nonexistent_letters corpus)

/-- The four predicate checks as the spec words them (spec §4.3): length 5,
every existent letter occurs somewhere, no nonexistent letter occurs anywhere,
and each locked (letter, position) pair matches. Stated from the spec, to be
compared with `check_word` from the source. -/
def PassesChecks (known_letters : List (Char × Nat)) (existent_letters : List Char)
    (nonexistent_letters : List Char) (w : Word) : Prop :=
  w.length = 5 ∧ (∀ c ∈ existent_letters, c ∈ w) ∧ (∀ c ∈ nonexistent_letters, c ∉ w) ∧
    ∀ li ∈ known_letters, w.get? li.2 = some li.1

theorem check_word_iff (k : List (Char × Nat)) (e n : List Char) (w : Word) :
    check_word k e n w = true ↔ PassesChecks k e n w := by
  unfold check_word PassesChecks
  by_cases h1 : w.length = 5 <;>
    simp [h1, List.all_eq_true, and_assoc]

/-- The three states of `LetterButton` (src/main.py lines 198-201). -/
inductive LetterState where
  | unknown : LetterState
  | existent : LetterState
  | nonexistent : LetterState
deriving DecidableEq

/-- Embedding of a `LetterButton`: its letter and its current state
(src/main.py lines 209-212). -/
structure LetterButton where
  letter : Char
  letter_state : LetterState

/-- Embedding of `LetterButton.change_state` (src/main.py lines 216-228):
the cyclic transition UNKNOWN - EXISTENT - NONEXISTENT. -/
def change_state (s : LetterState) : LetterState :=
  match s with
  | .unknown => .existent
  | .existent => .nonexistent
  | .nonexistent => .unknown

/-- Embedding of `LettersLayout.get_existent_letters` (src/main.py lines
265-272): the letters of the buttons currently in the EXISTENT state. -/
def get_existent_letters (letters : List LetterButton) : List Char :=
  (letters.filter fun b => b.letter_state == LetterState.existent).map fun b => b.letter

/-- Embedding of `LettersLayout.get_nonexistent_letters` (src/main.py lines
274-281): the letters of the buttons currently in the NONEXISTENT state. -/
def get_nonexistent_letters (letters : List LetterButton) : List Char :=
  (letters.filter fun b => b.letter_state == LetterState.nonexistent).map fun b => b.letter

/-- A complete run of the `word_retriever` generator: the loop over the
rank-descending rows either yields the row (when `check_word` succeeds) or
skips it, and terminates when the rows are exhausted. `GenRun k e n rows out`
says one invocation of the generator, consumed to exhaustion over `rows`,
produced exactly the sequence `out`. -/
inductive GenRun (k : List (Char × Nat)) (e n : List Char) : List Word → List Word → Prop where
  | done : GenRun k e n [] []
  | yield {w rest out} : check_word k e n w = true → GenRun k e n rest out →
      GenRun k e n (w :: rest) (w :: out)
  | skip {w rest out} : check_word k e n w = false → GenRun k e n rest out →
      GenRun k e n (w :: rest) out

/-- The letters a through y — every letter but z — used to build words for a
corpus larger than the display limit. -/
def abc : List Char :=
  "abcdefghijklmnopqrstuvwxy".toList

/-- The k-th letter among a..y. -/
def letA (k : Nat) : Char := abc.getD k 'a'

/-- The i-th z-free 5-letter word: aaa followed by the base-25 digits of i. -/
def mkWord (i : Nat) : Word := ['a', 'a', 'a', letA (i / 25), letA (i % 25)]

/-- A corpus of 201 five-letter words whose top-ranked word is the only one
containing the letter z: one more qualifying word than the display limit. -/
def corpus0 : List Word := ['z','e','b','r','a'] :: (List.range 200).map mkWord

/-- Claim C1: a word of the corpus is yielded by the search, before any limit
cutoff, if and only if it passes the four predicate checks: length 5, every
existent letter occurs somewhere, no nonexistent letter occurs anywhere, and
every locked (letter, position) pair matches. -/
theorem search_yields_iff_passes (k : List (Char × Nat)) (e n : List Char)
    (corpus : List Word) (w : Word) (hw : w ∈ corpus) :
    w ∈ word_retriever k e n corpus ↔ PassesChecks k e n w := by
  unfold word_retriever
  rw [List.mem_filter]
  constructor
  · rintro ⟨-, h⟩
    exact (check_word_iff k e n w).1 h
  · intro h
    exact ⟨hw, (check_word_iff k e n w).2 h⟩

theorem search_yields_iff_passes_witness :
    ['c','r','a','n','e'] ∈ word_retriever [('r', 1)] ['a'] ['i'] [['c','r','a','n','e']] ↔
      PassesChecks [('r', 1)] ['a'] ['i'] ['c','r','a','n','e'] :=
  search_yields_iff_passes [('r', 1)] ['a'] ['i'] [['c','r','a','n','e']]
    ['c','r','a','n','e'] (by simp)

/-- Claim C2: the sequence produced by the search is an order-preserving
subsequence of the corpus's rank-descending iteration: it is a sublist of the
corpus, and whenever the corpus ranks are non-increasing so are the ranks of
the output — the filter performs no re-ranking. -/
theorem search_order_preserving (k : List (Char × Nat)) (e n : List Char)
    (corpus : List Word) (rank : Word → Int)
    (hc : corpus.Pairwise fun a b => rank b ≤ rank a) :
    (word_retriever k e n corpus).Sublist corpus ∧
      (word_retriever k e n corpus).Pairwise fun a b => rank b ≤ rank a :=
  ⟨List.filter_sublist corpus, hc.sublist (List.filter_sublist corpus)⟩

theorem search_order_preserving_witness :
    (word_retriever [] [] [] [['c','r','a','n','e']]).Sublist [['c','r','a','n','e']] :=
  (search_order_preserving [] [] [] [['c','r','a','n','e']] (fun _ => 0) (by simp)).1

/-- Claim C3: the consumed result is the generator's output truncated at the
display limit: its length is the minimum of 200 and the number of qualifying
words, it is a subsequence of the generator's output, and it never holds more
than 200 words. -/
theorem search_truncated (corpus : List Word) (k : List (Char × Nat)) (e n : List Char) :
    (search corpus k e n).length = min display_limit (word_retriever k e n corpus).length ∧
      (search corpus k e n).Sublist (word_retriever k e n corpus) ∧
      (search corpus k e n).length ≤ 200 := by
  refine ⟨List.length_take _ _, List.take_sublist _ _, ?_⟩
  have h := List.length_take display_limit (word_retriever k e n corpus)
  calc (search corpus k e n).length
      = min display_limit (word_retriever k e n corpus).length := h
    _ ≤ display_limit := Nat.min_le_left _ _
    _ ≤ 200 := Nat.le_refl 200

/-- Claim C4: with empty locked, existent and nonexistent clue sets, the search
returns the first `limit` words of the corpus unchanged, in its rank-descending
order. -/
theorem search_empty_clues (corpus : List Word) (limit : Nat)
    (h5 : ∀ w ∈ corpus, w.length = 5) :
    (word_retriever [] [] [] corpus).take limit = corpus.take limit := by
  have hself : word_retriever [] [] [] corpus = corpus := by
    unfold word_retriever
    apply List.filter_eq_self.mpr
    intro w hw
    rw [check_word_iff]
    exact ⟨h5 w hw, by simp, by simp, by simp⟩
  rw [hself]

theorem search_empty_clues_witness :
    (word_retriever [] [] [] [['c','r','a','n','e']]).take 1 = [['c','r','a','n','e']].take 1 :=
  search_empty_clues [['c','r','a','n','e']] 1 (by decide)

/-- Claim C5: a word containing the letter r only at position 0 is rejected
when position 0 is locked to r and r is in the nonexistent set: the locked
occurrence itself counts for the nonexistent check, which sees all positions
including locked ones. -/
theorem locked_occurrence_triggers_nonexistent (w : Word) (e : List Char)
    (corpus : List Word) (h5 : w.length = 5) (h0 : w.get? 0 = some 'r')
    (honly : ∀ i, i < 5 → i ≠ 0 → w.get? i ≠ some 'r') :
    check_word [('r', 0)] e ['r'] w = false ∧
      w ∉ word_retriever [('r', 0)] e ['r'] corpus := by
  have hmem : 'r' ∈ w := List.get?_mem h0
  have hfalse : check_word [('r', 0)] e ['r'] w = false := by
    rw [Bool.eq_false_iff]
    intro htrue
    exact ((check_word_iff _ _ _ w).1 htrue).2.2.1 'r' (by simp) hmem
  refine ⟨hfalse, fun hin => ?_⟩
  unfold word_retriever at hin
  rw [List.mem_filter, hfalse] at hin
  exact Bool.false_ne_true hin.2

theorem locked_occurrence_triggers_nonexistent_witness :
    check_word [('r', 0)] [] ['r'] ['r','o','u','t','e'] = false ∧
      ['r','o','u','t','e'] ∉ word_retriever [('r', 0)] [] ['r'] [['r','o','u','t','e']] :=
  locked_occurrence_triggers_nonexistent ['r','o','u','t','e'] [] [['r','o','u','t','e']]
    (by decide) (by decide) (by decide)

/-- Claim C6, counterexample: under the 200-word display truncation the claimed
subset relation fails. In `corpus0`, 201 words qualify and only the top-ranked
one contains z; adding z to the nonexistent set discards that word and pulls
the previously cut-off word `mkWord 199` into the displayed result, where it
was absent with the smaller clue set. -/
theorem search_not_monotone_cx :
    mkWord 199 ∈ search corpus0 [] [] ['z'] ∧ mkWord 199 ∉ search corpus0 [] [] [] := by
  decide

/-- Claim C6, amended: adding one more letter to the nonexistent set, all else
fixed, never enlarges the result produced before the limit cutoff: every word
the generator yields with the enlarged set it also yields with the original
one. After the 200-word display truncation the subset relation can fail, as
the counterexample shows. -/
theorem nonexistent_monotone (k : List (Char × Nat)) (e n : List Char) (c : Char)
    (corpus : List Word) (w : Word)
    (hw : w ∈ word_retriever k e (c :: n) corpus) :
    w ∈ word_retriever k e n corpus := by
  unfold word_retriever at hw ⊢
  rw [List.mem_filter] at hw ⊢
  obtain ⟨hmem, hchk⟩ := hw
  refine ⟨hmem, ?_⟩
  rw [check_word_iff] at hchk ⊢
  obtain ⟨h1, h2, h3, h4⟩ := hchk
  exact ⟨h1, h2, fun x hx => h3 x (List.mem_cons_of_mem c hx), h4⟩

theorem nonexistent_monotone_witness :
    ['c','r','a','n','e'] ∈ word_retriever [] [] [] [['c','r','a','n','e']] :=
  nonexistent_monotone [] [] [] 'z' [['c','r','a','n','e']] ['c','r','a','n','e'] (by decide)

/-- Claim C7: three consecutive state advances return any letter to its
starting state along the cycle unknown - existent - nonexistent, and, the
keyboard's buttons carrying distinct letters, no letter is simultaneously in
the existent and the nonexistent sets. -/
theorem classification_cycle (s : LetterState) (letters : List LetterButton) (c : Char)
    (hd : (letters.map fun b => b.letter).Nodup) :
    change_state (change_state (change_state s)) = s ∧
      ¬(c ∈ get_existent_letters letters ∧ c ∈ get_nonexistent_letters letters) := by
  constructor
  · cases s <;> rfl
  · rintro ⟨he, hn⟩
    unfold get_existent_letters at he
    unfold get_nonexistent_letters at hn
    rw [List.mem_map] at he hn
    obtain ⟨b1, hb1, hbl1⟩ := he
    obtain ⟨b2, hb2, hbl2⟩ := hn
    rw [List.mem_filter] at hb1 hb2
    have hs1 : b1.letter_state = LetterState.existent := by
      have h := hb1.2
      simpa using h
    have hs2 : b2.letter_state = LetterState.nonexistent := by
      have h := hb2.2
      simpa using h
    have hb12 : b1 = b2 :=
      List.inj_on_of_nodup_map hd hb1.1 hb2.1 (hbl1.trans hbl2.symm)
    rw [hb12, hs2] at hs1
    exact LetterState.noConfusion hs1

theorem classification_cycle_witness :
    change_state (change_state (change_state LetterState.unknown)) = LetterState.unknown ∧
      ¬('a' ∈ get_existent_letters [⟨'a', LetterState.existent⟩] ∧
        'a' ∈ get_nonexistent_letters [⟨'a', LetterState.existent⟩]) :=
  classification_cycle LetterState.unknown [⟨'a', LetterState.existent⟩] 'a' (by simp)

/-- Claim C8: determinism and idempotence of the search: any complete run of
the generator over a fixed corpus and clue set produces exactly
`word_retriever`'s output, so two invocations with identical inputs yield
identical sequences, depending on nothing but the corpus and the clue set. -/
theorem search_deterministic (k : List (Char × Nat)) (e n : List Char)
    (corpus out : List Word) :
    GenRun k e n corpus out ↔ out = word_retriever k e n corpus := by
  constructor
  · intro h
    induction h with
    | done => rfl
    | yield hc _ ih =>
      subst ih
      simp [word_retriever, List.filter_cons, hc]
    | skip hc _ ih =>
      subst ih
      simp [word_retriever, List.filter_cons, hc]
  · intro h
    subst h
    induction corpus with
    | nil => exact GenRun.done
    | cons w rest ih =>
      by_cases hc : check_word k e n w = true
      · have hrw : word_retriever k e n (w :: rest) = w :: word_retriever k e n rest := by
          simp [word_retriever, List.filter_cons, hc]
        rw [hrw]
        exact GenRun.yield hc ih
      · rw [Bool.not_eq_true] at hc
        have hrw : word_retriever k e n (w :: rest) = word_retriever k e n rest := by
          simp [word_retriever, List.filter_cons, hc]
        rw [hrw]
        exact GenRun.skip hc ih

/-- Claim C9, counterexample: the code has no corpus-load validation and no
load-time error: a malformed row — the 4-letter word cats — raises nothing and
aborts nothing; the search silently drops it and returns an ordinary
non-error result built from the remaining rows. -/
theorem malformed_corpus_no_error :
    ['c','a','t','s'] ∉ word_retriever [] [] [] [['c','a','t','s'], ['c','r','a','n','e']] ∧
      word_retriever [] [] [] [['c','a','t','s'], ['c','r','a','n','e']] =
        [['c','r','a','n','e']] := by
  decide

/-- Claim C9, amended: corpus loading performs no validation and raises no
load error: a row whose word is not exactly 5 letters is silently dropped by
the search's length check rather than reported, so the search on any corpus
equals the search on that corpus with its malformed rows removed. -/
theorem malformed_rows_silently_filtered (k : List (Char × Nat)) (e n : List Char)
    (corpus : List Word) :
    word_retriever k e n corpus =
      word_retriever k e n (corpus.filter fun w => w.length == 5) := by
  unfold word_retriever
  rw [List.filter_filter]
  apply List.filter_congr
  intro w hw
  by_cases hc : check_word k e n w = true
  · have h5 : w.length = 5 := ((check_word_iff k e n w).1 hc).1
    simp [hc, h5]
  · rw [Bool.not_eq_true] at hc
    simp [hc]

/-- Claim C10: when the same letter sits in both the existent and the
nonexistent lists, `check_word` rejects every word, so the search result is
the empty sequence rather than an error. -/
theorem overlapping_clues_empty (k : List (Char × Nat)) (e n : List Char) (c : Char)
    (corpus : List Word) (w : Word) (he : c ∈ e) (hn : c ∈ n) :
    check_word k e n w = false ∧ word_retriever k e n corpus = [] := by
  have hall : ∀ v : Word, check_word k e n v = false := by
    intro v
    rw [Bool.eq_false_iff]
    intro htrue
    obtain ⟨h1, h2, h3, h4⟩ := (check_word_iff k e n v).1 htrue
    exact h3 c hn (h2 c he)
  refine ⟨hall w, ?_⟩
  unfold word_retriever
  apply List.filter_eq_nil_iff.mpr
  intro v hv
  simp [hall v]

theorem overlapping_clues_empty_witness :
    check_word [] ['a'] ['a'] ['c','r','a','n','e'] = false ∧
      word_retriever [] ['a'] ['a'] [['c','r','a','n','e']] = [] :=
  overlapping_clues_empty [] ['a'] ['a'] 'a' [['c','r','a','n','e']] ['c','r','a','n','e']
    (by decide) (by decide)
